import Mathlib

/-!
# Verification of the TTS backend's core request pipeline

Shallow embedding of the subscription-gated text-to-speech pipeline:
the `/api/tts/convert` route (middleware chain `checkSubscription`,
`checkCharacterLimit`, `checkConcurrentRequests`, validation, then the
`convertTextToSpeech` controller), the `previewVoice` and `getDownloadUrl`
controllers, and the pure helpers of `ttsService`.

External I/O (Polly, S3, URL signing) is modelled by oracle values of type
`Except String _`: an `Except.error` models the external call throwing, and
the carried string is the thrown message. Persistence is modelled by
returning the updated records; each `save()` of the newly created VoiceFile
document appends a snapshot to `savedJobs`.

The Mongoose model files (`Usage`, `VoiceFile`, `Subscription`, `Plan`)
are not part of the available sources; the methods the controllers call on
them (`getOrCreateCurrentUsage`, `hasQuota`, `getRemainingCharacters`,
`addUsage`) are modelled from the spec and marked as such.
-/

namespace TTS

/-- Decidable equality for `Except`, used by the derived instances below. -/
instance exceptDecEq {e a : Type} [DecidableEq e] [DecidableEq a] :
    DecidableEq (Except e a) := fun x y =>
  match x, y with
  | .ok v, .ok w =>
      if h : v = w then .isTrue (by rw [h])
      else .isFalse (by intro hc; cases hc; exact h rfl)
  | .ok _, .error _ => .isFalse (by intro hc; cases hc)
  | .error _, .ok _ => .isFalse (by intro hc; cases hc)
  | .error v, .error w =>
      if h : v = w then .isTrue (by rw [h])
      else .isFalse (by intro hc; cases hc; exact h rfl)

/-- Subscription status, `status ∈ {pending, active, expired, cancelled}`. -/
inductive SubStatus : Type
  | pending
  | active
  | expired
  | cancelled
deriving DecidableEq, Repr

/-- Plan feature set. `maxConcurrentRequests` is the field read by
`checkConcurrentRequests`; `none` models the field being unset in the plan
document (JS `undefined`). -/
structure PlanFeatures : Type where
  charactersPerMonth : Nat
  maxConcurrentRequests : Option Nat
deriving DecidableEq, Repr

/-- A plan, read-only from the core's perspective. -/
structure Plan : Type where
  features : PlanFeatures
deriving DecidableEq, Repr

/-- A subscription with its populated plan.  `endDate = none` models a
subscription document without an end date. Dates are integers (epoch). -/
structure Subscription : Type where
  status : SubStatus
  endDate : Option Int
  plan : Plan
deriving DecidableEq, Repr

/-- Modelled from the spec: the UsageRecord of §3 — the Mongoose `Usage`
model file is not among the available sources.  Per-user per-period counter;
`charactersLimit` is set from `plan.features.charactersPerMonth` at creation. -/
structure UsageRecord : Type where
  charactersUsed : Nat
  charactersLimit : Nat
  requestsCount : Nat
  audioFilesGenerated : Nat
  totalAudioDurationSeconds : Nat
deriving DecidableEq, Repr

namespace UsageRecord

/-- Modelled from the spec (§4.2): `allowed` is true iff
`charactersUsed + requestedChars <= plan.features.charactersPerMonth`.
The `Usage.hasQuota` method itself is not among the available sources. -/
def hasQuota (u : UsageRecord) (requestedChars : Nat) : Bool :=
  u.charactersUsed + requestedChars ≤ u.charactersLimit

/-- Modelled from the spec: remaining capacity surfaced in quota telemetry
(§8 scenario: limit 5000, used 4990 → remaining 10). -/
def getRemainingCharacters (u : UsageRecord) : Nat :=
  u.charactersLimit - u.charactersUsed

/-- Modelled from the spec (§4.2): the commit increments
`charactersUsed += actualChars`, `requestsCount += 1`,
`audioFilesGenerated += 1`, `totalAudioDurationSeconds += durationSeconds`.
The `Usage.addUsage` method itself is not among the available sources;
per §5 it is applied as a single atomic increment. -/
def addUsage (u : UsageRecord) (actualChars durationSeconds : Nat) : UsageRecord :=
  { u with
    charactersUsed := u.charactersUsed + actualChars
    requestsCount := u.requestsCount + 1
    audioFilesGenerated := u.audioFilesGenerated + 1
    totalAudioDurationSeconds := u.totalAudioDurationSeconds + durationSeconds }

end UsageRecord

/-- Modelled from the spec (§4.2): `getOrCreateCurrentUsage` lazily creates
the UsageRecord for the current period with zero counters and the plan's
monthly character allowance as limit, or returns the existing record.
The `Usage` model file is not among the available sources. -/
def getOrCreateCurrentUsage (existing : Option UsageRecord) (plan : Plan) :
    UsageRecord :=
  match existing with
  | some u => u
  | none =>
      { charactersUsed := 0
        charactersLimit := plan.features.charactersPerMonth
        requestsCount := 0
        audioFilesGenerated := 0
        totalAudioDurationSeconds := 0 }

/-- Lifecycle status of a VoiceFile (SynthesisJob) record. -/
inductive JobStatus : Type
  | processing
  | completed
  | failed
deriving DecidableEq, Repr

/-- A voice as returned by `ttsService.getAvailableVoices`. -/
structure Voice : Type where
  id : String
  name : String
  language : String
  gender : String
deriving DecidableEq, Repr

/-- The VoiceFile (SynthesisJob) document, as constructed by
`convertTextToSpeech` step 6 and mutated on the success/failure paths. -/
structure VoiceFile : Type where
  userId : String
  filename : String
  originalText : String
  textLength : Nat
  voice : Voice
  audioFormat : String
  status : JobStatus
  audioUrl : String
  s3Key : String
  duration : Nat
  fileSize : Nat
  errorMessage : Option String
  downloadCount : Nat
  lastDownloadedAt : Option Int
deriving DecidableEq, Repr

/-- Result of `ttsService.synthesizeText`: the materialized audio buffer
(modelled by its length), content type, and the provider-reported
`RequestCharacters` billing count. -/
structure SynthesisResult : Type where
  audioBufferLen : Nat
  contentType : String
  requestCharacters : Nat
deriving DecidableEq, Repr

/-- `this.supportedFormats` in ttsService. -/
def supportedFormats : List String := ["mp3", "wav", "ogg"]

/-- `this.supportedEngines` in ttsService. -/
def supportedEngines : List String := ["standard", "neural"]

/-- `ttsService.synthesizeText`: validates inputs, delegates to Polly
(the `polly` oracle), and — because the whole body sits in one
`try`/`catch` — re-wraps every thrown message as
`"Speech synthesis failed: " ++ message`. -/
def synthesizeTextRaw (text voiceId : String) (outputFormat engine : String)
    (polly : Except String SynthesisResult) : Except String SynthesisResult :=
  if text = "" ∨ voiceId = "" then
    .error "Text and voice ID are required"
  else if ¬ supportedFormats.contains outputFormat then
    .error ("Unsupported output format: " ++ outputFormat)
  else if ¬ supportedEngines.contains engine then
    .error ("Unsupported engine: " ++ engine)
  else
    polly

/-- The `catch` of `synthesizeText` re-wraps every thrown message. -/
def synthesizeText (text voiceId : String) (outputFormat engine : String)
    (polly : Except String SynthesisResult) : Except String SynthesisResult :=
  match synthesizeTextRaw text voiceId outputFormat engine polly with
  | .ok r => .ok r
  | .error e => .error ("Speech synthesis failed: " ++ e)

/-- Maximal non-whitespace runs in a character list: the number of pieces
`/\s+/` splitting produces on a string with no leading/trailing
whitespace. `inWord` records whether the previous character was part of a
word. -/
def countRuns : List Char → Bool → Nat
  | [], _ => 0
  | c :: cs, inWord =>
      if c.isWhitespace then countRuns cs false
      else (if inWord then 0 else 1) + countRuns cs true

/-- `trim()` on the character list: strip whitespace from both ends. -/
def jsTrim (cs : List Char) : List Char :=
  ((cs.dropWhile Char.isWhitespace).reverse.dropWhile
    Char.isWhitespace).reverse

/-- Word count as computed by `text.trim().split(/\s+/).length` in
JavaScript: splitting the empty string yields `[""]` of length 1; otherwise
the count of maximal whitespace-separated runs. -/
def wordCount (s : String) : Nat :=
  let t := jsTrim s.data
  if t = [] then 1
  else countRuns t false

/-- `ttsService.estimateAudioDuration` at the default 150 words per minute:
`Math.ceil(wordCount / 150 * 60)` seconds, i.e. `⌈2·wordCount/5⌉`. -/
def estimateAudioDuration (text : String) : Nat :=
  (2 * wordCount text + 4) / 5

/-- `ttsService.getVoiceById`: looks the id up in the DescribeVoices
response; its own `catch` re-throws any provider error as
`"Failed to validate voice ID"`. -/
def getVoiceById (describeVoices : Except String (List Voice))
    (voiceId : String) : Except String (Option Voice) :=
  match describeVoices with
  | .ok vs => .ok (vs.find? (fun v => v.id = voiceId))
  | .error _ => .error "Failed to validate voice ID"

/-- `storageService.uploadAudioFile`: puts the buffer under key
`audio/{userId}/{uuid}-{filename}`; its `catch` re-throws any S3 error as
`"Failed to upload audio file"`. -/
def uploadAudioFile (userId uuid filename : String)
    (s3put : Except String Unit) : Except String String :=
  match s3put with
  | .ok _ => .ok ("audio/" ++ userId ++ "/" ++ uuid ++ "-" ++ filename)
  | .error _ => .error "Failed to upload audio file"

/-- `storageService.generatePresignedDownloadUrl`: mints a signed URL for
the key; its `catch` re-throws any signing error as
`"Failed to generate download URL"`. -/
def generatePresignedDownloadUrl (_key _filename : String)
    (signer : Except String String) : Except String String :=
  match signer with
  | .ok url => .ok url
  | .error _ => .error "Failed to generate download URL"

/-- Machine-readable outcome kinds of the convert pipeline, one per
distinct rejection/response of the source. `activeSubscriptionRequired` is
the controller's own inline re-check (tts.controller.js line 60);
`serverError` is the outer `catch` (HTTP 500). -/
inductive ConvertError : Type
  | invalidInput
  | noSubscription
  | subscriptionInactive
  | subscriptionExpired
  | activeSubscriptionRequired
  | quotaExceeded
  | concurrencyLimitExceeded
  | invalidVoice
  | serverError
deriving DecidableEq, Repr

/-- The body of a POST /convert request. `none` for `outputFormat`/`engine`
models the field being absent (controller defaults apply). -/
structure ConvertRequest : Type where
  text : String
  voiceId : String
  outputFormat : Option String
  engine : Option String
deriving DecidableEq, Repr

/-- Oracles standing for the external collaborators: the DescribeVoices
call, the SynthesizeSpeech call, the S3 put, and the URL signer. An
`Except.error` models the external call throwing with that message. -/
structure Oracles : Type where
  describeVoices : Except String (List Voice)
  polly : Except String SynthesisResult
  s3put : Except String Unit
  signer : Except String String

/-- Success payload of the convert pipeline (the fields of the 200 body
the claims are about). -/
structure ConvertSuccess : Type where
  filename : String
  audioUrl : String
  duration : Nat
  fileSize : Nat
  charactersUsed : Nat
  charactersLimit : Nat
  remaining : Nat
deriving DecidableEq, Repr

/-- The observable effect of one convert request: the HTTP-level result,
the stored usage record afterwards (`none` when never touched), the stored
subscription afterwards, the snapshots of the newly created VoiceFile in
save order, and whether `ttsService.synthesizeText` was invoked. -/
structure ConvertOutcome : Type where
  result : Except ConvertError ConvertSuccess
  usageAfter : Option UsageRecord
  subAfter : Option Subscription
  savedJobs : List VoiceFile
  synthCalled : Bool
deriving DecidableEq, Repr

/-- Result of the `checkSubscription` middleware: either a rejection or the
resolved plan, together with the stored subscription afterwards (the lazy
expiry transition is the only write). -/
structure CheckSubResult : Type where
  decision : Except ConvertError Plan
  subAfter : Option Subscription
deriving DecidableEq, Repr

/-- The `checkSubscription` middleware (middleware/subscription.js lines
6–75): rejects when no subscription exists, when its status is not
`active`, or when `endDate` is set and in the past — in that order — and in
the expired case first persists `status := expired`. -/
def checkSubscription (sub : Option Subscription) (now : Int) :
    CheckSubResult :=
  match sub with
  | none => ⟨.error .noSubscription, none⟩
  | some s =>
      if s.status ≠ .active then
        ⟨.error .subscriptionInactive, some s⟩
      else
        match s.endDate with
        | some d =>
            if d < now then
              ⟨.error .subscriptionExpired, some { s with status := .expired }⟩
            else
              ⟨.ok s.plan, some s⟩
        | none => ⟨.ok s.plan, some s⟩

/-- Result of the `checkCharacterLimit` middleware: the usage record it
loaded or lazily created (persisted either way), and an optional
rejection. -/
structure CheckQuotaResult : Type where
  usage : Option UsageRecord
  decision : Option ConvertError
deriving DecidableEq, Repr

/-- The `checkCharacterLimit` middleware (middleware/subscription.js lines
105–154): requires a non-empty text, loads or creates the current period's
usage record, and rejects with `quotaExceeded` when `hasQuota(text.length)`
is false. -/
def checkCharacterLimit (text : String) (existingUsage : Option UsageRecord)
    (plan : Plan) : CheckQuotaResult :=
  if text = "" then ⟨existingUsage, some .invalidInput⟩
  else
    let usage := getOrCreateCurrentUsage existingUsage plan
    if usage.hasQuota text.length then ⟨some usage, none⟩
    else ⟨some usage, some .quotaExceeded⟩

/-- The effective concurrency ceiling:
`req.plan.features.maxConcurrentRequests || 5` — JavaScript `||` falls back
to 5 both when the field is unset and when it is 0 (falsy). -/
def effectiveConcurrencyLimit (plan : Plan) : Nat :=
  match plan.features.maxConcurrentRequests with
  | some n => if n = 0 then 5 else n
  | none => 5

/-- The `checkConcurrentRequests` middleware (middleware/subscription.js
lines 157–193): counts the user's `processing` VoiceFile records and
rejects when that count reaches the effective ceiling. -/
def checkConcurrentRequests (processingCount : Nat) (plan : Plan) :
    Option ConvertError :=
  if processingCount ≥ effectiveConcurrencyLimit plan then
    some .concurrencyLimitExceeded
  else none

/-- The express-validator chain `ttsValidation` on POST /convert: text
between 1 and 300000 characters, voiceId non-empty, outputFormat and
engine, when present, drawn from the supported sets. -/
def ttsValidation (req : ConvertRequest) : Bool :=
  req.text ≠ "" && req.text.length ≤ 300000 && req.voiceId ≠ "" &&
  (match req.outputFormat with
   | none => true
   | some f => supportedFormats.contains f) &&
  (match req.engine with
   | none => true
   | some e => supportedEngines.contains e)

/-- The inner `catch` of `convertTextToSpeech` (lines 183–189): mark the
job document `failed` with the thrown message and save it. -/
def markFailed (job : VoiceFile) (msg : String) : VoiceFile :=
  { job with status := .failed, errorMessage := some msg }

/-- The retrieval-side bookkeeping of `getDownloadUrl` (lines 226–228):
increment `downloadCount` and stamp `lastDownloadedAt`. -/
def recordDownload (f : VoiceFile) (now : Int) : VoiceFile :=
  { f with downloadCount := f.downloadCount + 1, lastDownloadedAt := some now }

/-- The `convertTextToSpeech` controller (tts.controller.js lines 36–197).
`uuid` is the filename uuid, `uuidS3` the one `uploadAudioFile` draws for
the storage key. Every path returns the stored state it leaves behind. -/
def convertController (req : ConvertRequest) (sub : Option Subscription)
    (usageStore : Option UsageRecord) (userId uuid uuidS3 : String)
    (orc : Oracles) : ConvertOutcome :=
  let outputFormat := req.outputFormat.getD "mp3"
  let engine := req.engine.getD "standard"
  if req.text = "" ∨ req.voiceId = "" then
    ⟨.error .invalidInput, usageStore, sub, [], false⟩
  else if req.text.length > 300000 then
    ⟨.error .invalidInput, usageStore, sub, [], false⟩
  else
    match sub with
    | none => ⟨.error .activeSubscriptionRequired, usageStore, none, [], false⟩
    | some s =>
        if s.status ≠ .active then
          ⟨.error .activeSubscriptionRequired, usageStore, some s, [], false⟩
        else
          let usage := getOrCreateCurrentUsage usageStore s.plan
          if ¬ usage.hasQuota req.text.length then
            ⟨.error .quotaExceeded, some usage, some s, [], false⟩
          else
            match getVoiceById orc.describeVoices req.voiceId with
            | .error _ =>
                ⟨.error .serverError, some usage, some s, [], false⟩
            | .ok none =>
                ⟨.error .invalidVoice, some usage, some s, [], false⟩
            | .ok (some v) =>
                let filename := "tts_" ++ uuid ++ "." ++ outputFormat
                let job0 : VoiceFile :=
                  { userId := userId
                    filename := filename
                    originalText := req.text
                    textLength := req.text.length
                    voice := v
                    audioFormat := outputFormat
                    status := .processing
                    audioUrl := "PENDING"
                    s3Key := "PENDING"
                    duration := 0
                    fileSize := 0
                    errorMessage := none
                    downloadCount := 0
                    lastDownloadedAt := none }
                match synthesizeText req.text req.voiceId outputFormat engine
                    orc.polly with
                | .error msg =>
                    ⟨.error .serverError, some usage, some s,
                      [job0, markFailed job0 msg], true⟩
                | .ok synth =>
                    let est := estimateAudioDuration req.text
                    match uploadAudioFile userId uuidS3 filename orc.s3put with
                    | .error msg =>
                        ⟨.error .serverError, some usage, some s,
                          [job0, markFailed job0 msg], true⟩
                    | .ok key =>
                        match generatePresignedDownloadUrl key filename
                            orc.signer with
                        | .error msg =>
                            ⟨.error .serverError, some usage, some s,
                              [job0, markFailed job0 msg], true⟩
                        | .ok url =>
                            let jobDone : VoiceFile :=
                              { job0 with
                                s3Key := key
                                audioUrl := url
                                fileSize := synth.audioBufferLen
                                duration := est
                                status := .completed }
                            let usage2 :=
                              usage.addUsage req.text.length est
                            ⟨.ok
                              { filename := filename
                                audioUrl := url
                                duration := est
                                fileSize := synth.audioBufferLen
                                charactersUsed := usage2.charactersUsed
                                charactersLimit := usage2.charactersLimit
                                remaining := usage2.getRemainingCharacters },
                              some usage2, some s, [job0, jobDone], true⟩

/-- The full POST /api/tts/convert pipeline in route order
(tts.routes.js lines 68–76): `checkSubscription`, `checkCharacterLimit`,
`checkConcurrentRequests`, validation, then the controller. The rate
limiter is a pass-through for admitted traffic and is not modelled. -/
def convertPipeline (req : ConvertRequest) (sub : Option Subscription)
    (existingUsage : Option UsageRecord) (processingCount : Nat)
    (userId uuid uuidS3 : String) (now : Int) (orc : Oracles) :
    ConvertOutcome :=
  let mw1 := checkSubscription sub now
  match mw1.decision with
  | .error e => ⟨.error e, existingUsage, mw1.subAfter, [], false⟩
  | .ok plan =>
      let q := checkCharacterLimit req.text existingUsage plan
      match q.decision with
      | some e => ⟨.error e, q.usage, mw1.subAfter, [], false⟩
      | none =>
          match checkConcurrentRequests processingCount plan with
          | some e => ⟨.error e, q.usage, mw1.subAfter, [], false⟩
          | none =>
              if ttsValidation req then
                convertController req sub q.usage userId uuid uuidS3 orc
              else
                ⟨.error .invalidInput, q.usage, mw1.subAfter, [], false⟩

/-- Outcome kinds of GET /download/:fileId. -/
inductive DownloadError : Type
  | notFound
  | serverError
deriving DecidableEq, Repr

/-- The observable effect of a download request: the fresh presigned URL or
an error, and the stored VoiceFile afterwards. -/
structure DownloadOutcome : Type where
  result : Except DownloadError String
  fileAfter : Option VoiceFile
deriving DecidableEq, Repr

/-- The `getDownloadUrl` controller (tts.controller.js lines 202–245):
`findOne({_id, user, status: completed})`, mint a fresh presigned URL, then
increment `downloadCount` and stamp `lastDownloadedAt`. `file` is the
record the id resolves to for this user, if any. -/
def getDownloadUrl (file : Option VoiceFile) (now : Int)
    (signer : Except String String) : DownloadOutcome :=
  match file with
  | none => ⟨.error .notFound, none⟩
  | some f =>
      if f.status ≠ .completed then ⟨.error .notFound, some f⟩
      else
        match generatePresignedDownloadUrl f.s3Key f.filename signer with
        | .error _ => ⟨.error .serverError, some f⟩
        | .ok url =>
            ⟨.ok url, some (recordDownload f now)⟩

/-- The observable effect of a voice-preview request: whether it succeeded,
and the exact text handed to `ttsService.synthesizeText`, when the call was
made at all. -/
structure PreviewOutcome : Type where
  ok : Bool
  synthesizedText : Option String
deriving DecidableEq, Repr

/-- The express-validator chain `previewValidation` on POST /preview:
voiceId non-empty, sampleText at most 100 characters when present. -/
def previewValidation (voiceId : String) (sampleText : Option String) : Bool :=
  voiceId ≠ "" &&
  (match sampleText with
   | none => true
   | some t => t.length ≤ 100)

/-- JavaScript `s.substring(0, n)`: the first `n` characters of `s` (all of
`s` when it is shorter). -/
def jsSubstringTo (s : String) (n : Nat) : String :=
  (s.data.take n).asString

/-- The `previewVoice` controller (tts.controller.js lines 250–285):
defaults the sample text, rejects a missing voiceId, truncates the sample
to its first 100 characters (`substring(0, 100)`), and synthesizes the
truncated text with format mp3 and the standard engine. -/
def previewVoice (voiceId : String) (sampleText : Option String)
    (polly : Except String SynthesisResult) : PreviewOutcome :=
  let sample := sampleText.getD "Hello, this is a sample of my voice."
  if voiceId = "" then ⟨false, none⟩
  else
    let limitedText := jsSubstringTo sample 100
    match synthesizeText limitedText voiceId "mp3" "standard" polly with
    | .ok _ => ⟨true, some limitedText⟩
    | .error _ => ⟨false, some limitedText⟩

/-- The persistent store the claims quantify over: usage records, job
records, subscriptions (one user's slice suffices for the claims). -/
structure Store : Type where
  usage : Option UsageRecord
  jobs : List VoiceFile
  sub : Option Subscription
deriving Repr

/-- The full POST /api/tts/preview pipeline (tts.routes.js line 62): the
route is declared before `router.use(protect)` and runs only validation and
`previewVoice` — no authentication, no subscription middleware, and no
model access, so the store passes through untouched. -/
def previewPipeline (st : Store) (voiceId : String)
    (sampleText : Option String) (polly : Except String SynthesisResult) :
    PreviewOutcome × Store :=
  if previewValidation voiceId sampleText then
    (previewVoice voiceId sampleText polly, st)
  else
    (⟨false, none⟩, st)

/-- Modelled from the spec (§5): the Quota Ledger commit for one
(userId, periodKey) is applied as a single atomic increment, so a schedule
of concurrent commits is some sequential order of those increments. -/
def commitSchedule (initial : Nat) (amounts : List Nat) : Nat :=
  amounts.foldl (· + ·) initial

/-- The characters recorded in a stored usage slot (0 when no record
exists yet — a lazily created record starts at 0). -/
def storedCharactersUsed (slot : Option UsageRecord) : Nat :=
  (slot.map UsageRecord.charactersUsed).getD 0

/-! ## General lemmas about the embedding -/

theorem getOrCreate_charactersUsed (x : Option UsageRecord) (plan : Plan) :
    (getOrCreateCurrentUsage x plan).charactersUsed = storedCharactersUsed x := by
  cases x <;> simp [getOrCreateCurrentUsage, storedCharactersUsed]

theorem jsSubstringTo_length_le (s : String) (n : Nat) :
    (jsSubstringTo s n).length ≤ n := by
  have h : (jsSubstringTo s n).length = min n s.data.length := by
    simp [jsSubstringTo, List.asString]
  exact h ▸ Nat.min_le_left _ _

theorem synthesizeText_error_ne_empty (text voiceId outputFormat engine : String)
    (polly : Except String SynthesisResult) (m : String)
    (h : synthesizeText text voiceId outputFormat engine polly = .error m) :
    m ≠ "" := by
  unfold synthesizeText at h
  cases hr : synthesizeTextRaw text voiceId outputFormat engine polly with
  | ok r => rw [hr] at h; cases h
  | error e =>
      rw [hr] at h
      cases h
      intro hc
      have hl := congrArg String.length hc
      rw [String.length_append, String.length_empty] at hl
      have hp : ("Speech synthesis failed: ").length = 25 := by rfl
      omega

theorem previewVoice_synthesizedText (voiceId : String)
    (sampleText : Option String) (polly : Except String SynthesisResult) :
    (previewVoice voiceId sampleText polly).synthesizedText =
      if voiceId = "" then none
      else
        some (jsSubstringTo
          (sampleText.getD "Hello, this is a sample of my voice.") 100) := by
  by_cases h : voiceId = ""
  · simp [previewVoice, h]
  · cases hsy : synthesizeText
        (jsSubstringTo
          (sampleText.getD "Hello, this is a sample of my voice.") 100)
        voiceId "mp3" "standard" polly <;>
      simp [previewVoice, h, hsy]

theorem storedCharactersUsed_some (u : UsageRecord) :
    storedCharactersUsed (some u) = u.charactersUsed := rfl

theorem uploadAudioFile_error_ne_empty (uid u2 fn : String)
    (s3put : Except String Unit) (m : String)
    (h : uploadAudioFile uid u2 fn s3put = .error m) : m ≠ "" := by
  unfold uploadAudioFile at h
  cases s3put with
  | ok v => cases h
  | error e =>
      injection h with h2
      subst h2
      decide

theorem generatePresignedDownloadUrl_error_ne_empty (k fn : String)
    (signer : Except String String) (m : String)
    (h : generatePresignedDownloadUrl k fn signer = .error m) : m ≠ "" := by
  unfold generatePresignedDownloadUrl at h
  cases signer with
  | ok v => cases h
  | error e =>
      injection h with h2
      subst h2
      decide

theorem convertPipeline_chars (req : ConvertRequest) (sub : Option Subscription)
    (x : Option UsageRecord) (count : Nat) (uid u1 u2 : String) (now : Int)
    (orc : Oracles) :
    storedCharactersUsed
        (convertPipeline req sub x count uid u1 u2 now orc).usageAfter =
      storedCharactersUsed x +
        (match (convertPipeline req sub x count uid u1 u2 now orc).result with
         | .ok _ => req.text.length
         | .error _ => 0) := by
  unfold convertPipeline convertController checkCharacterLimit
  dsimp only
  repeat' split
  all_goals
    simp_all [storedCharactersUsed_some, getOrCreate_charactersUsed,
      UsageRecord.addUsage]

theorem convertPipeline_ok_payload (req : ConvertRequest)
    (sub : Option Subscription) (x : Option UsageRecord) (count : Nat)
    (uid u1 u2 : String) (now : Int) (orc : Oracles) :
    (((convertPipeline req sub x count uid u1 u2 now orc).result.toOption).map
        (fun s => s.charactersUsed)).getD
      (storedCharactersUsed
        (convertPipeline req sub x count uid u1 u2 now orc).usageAfter) =
    storedCharactersUsed
      (convertPipeline req sub x count uid u1 u2 now orc).usageAfter := by
  unfold convertPipeline convertController
  dsimp only
  repeat' split
  all_goals
    simp [Except.toOption, storedCharactersUsed_some, UsageRecord.addUsage]

theorem convertPipeline_savedJobs (req : ConvertRequest)
    (sub : Option Subscription) (x : Option UsageRecord) (count : Nat)
    (uid u1 u2 : String) (now : Int) (orc : Oracles) :
    (convertPipeline req sub x count uid u1 u2 now orc).savedJobs = [] ∨
    ∃ j0 j1,
      (convertPipeline req sub x count uid u1 u2 now orc).savedJobs =
        [j0, j1] ∧
      j0.status = .processing ∧
      (((convertPipeline req sub x count uid u1 u2 now orc).result.isOk =
            true ∧ j1.status = .completed) ∨
       ((convertPipeline req sub x count uid u1 u2 now orc).result.isOk =
            false ∧ j1.status = .failed ∧
          ∃ m, j1.errorMessage = some m ∧ m ≠ "")) := by
  unfold convertPipeline convertController
  dsimp only
  repeat' split
  all_goals try exact Or.inl rfl
  all_goals
    (right
     refine ⟨_, _, rfl, rfl, ?_⟩
     first
       | exact Or.inl ⟨rfl, rfl⟩
       | (rename_i m heq
          refine Or.inr ⟨rfl, rfl, m, rfl, ?_⟩
          first
            | exact synthesizeText_error_ne_empty _ _ _ _ _ _ heq
            | exact uploadAudioFile_error_ne_empty _ _ _ _ _ heq
            | exact generatePresignedDownloadUrl_error_ne_empty _ _ _ _ heq))

theorem convertPipeline_jobs_only_from_synthesis (req : ConvertRequest)
    (sub : Option Subscription) (x : Option UsageRecord) (count : Nat)
    (uid u1 u2 : String) (now : Int) (orc : Oracles) :
    (convertPipeline req sub x count uid u1 u2 now orc).savedJobs = [] ∨
    (convertPipeline req sub x count uid u1 u2 now orc).result =
      .error .serverError ∨
    ((convertPipeline req sub x count uid u1 u2 now orc).result).isOk =
      true := by
  unfold convertPipeline convertController
  dsimp only
  repeat' split
  all_goals simp [Except.isOk, Except.toBool]

theorem commitSchedule_eq_sum (initial : Nat) (amounts : List Nat) :
    commitSchedule initial amounts = initial + amounts.sum := by
  induction amounts generalizing initial with
  | nil => simp [commitSchedule]
  | cons a t ih =>
      simp only [commitSchedule] at ih ⊢
      rw [List.foldl_cons, ih]
      simp [List.sum_cons]
      omega

/-! ## Concrete fixtures for witnesses and counterexamples -/

/-- A concrete voice as DescribeVoices would return it. -/
def fixtureVoice : Voice := ⟨"Joanna", "Joanna", "en-US", "Female"⟩

/-- A plan with 50000 monthly characters and concurrency ceiling 5. -/
def fixturePlan : Plan := ⟨⟨50000, some 5⟩⟩

/-- An active subscription on `fixturePlan` ending at time 100. -/
def fixtureSub : Subscription := ⟨.active, some 100, fixturePlan⟩

/-- Oracles for a successful run in which Polly reports 17 billed
characters (`RequestCharacters`) for the 11-character input. -/
def fixtureOracles17 : Oracles :=
  ⟨.ok [fixtureVoice], .ok ⟨1000, "audio/mpeg", 17⟩, .ok (),
    .ok "https://signed.example/u"⟩

/-- An 11-character conversion request. -/
def fixtureReq : ConvertRequest := ⟨"Hello world", "Joanna", none, none⟩

/-- A successful concrete run: fresh usage, no in-flight jobs. -/
def fixtureRun17 : ConvertOutcome :=
  convertPipeline fixtureReq (some fixtureSub) none 0 "u1" "id1" "id2" 50
    fixtureOracles17

/-- The response payload `fixtureRun17` produces. -/
def fixtureSuccess17 : ConvertSuccess :=
  ⟨"tts_id1.mp3", "https://signed.example/u", 1, 1000, 11, 50000, 49989⟩

/-- A 6-character follow-up request by the same user. -/
def fixtureReqB : ConvertRequest := ⟨"Hi you", "Joanna", none, none⟩

/-- Oracles for the follow-up run: Polly reports 9 billed characters. -/
def fixtureOracles9 : Oracles :=
  ⟨.ok [fixtureVoice], .ok ⟨500, "audio/mpeg", 9⟩, .ok (),
    .ok "https://signed.example/v"⟩

/-- Oracles for a first run in which Polly reports 20 billed characters. -/
def fixtureOracles20 : Oracles :=
  ⟨.ok [fixtureVoice], .ok ⟨1000, "audio/mpeg", 20⟩, .ok (),
    .ok "https://signed.example/u"⟩

/-- First of two same-period runs (text length 11, billed 20). -/
def fixtureRunSeq1 : ConvertOutcome :=
  convertPipeline fixtureReq (some fixtureSub) none 0 "u1" "id1" "id2" 50
    fixtureOracles20

/-- Second same-period run, threading the stored usage record of the first
(text length 6, billed 9). -/
def fixtureRunSeq2 : ConvertOutcome :=
  convertPipeline fixtureReqB (some fixtureSub) fixtureRunSeq1.usageAfter 0
    "u1" "id3" "id4" 50 fixtureOracles9

/-- Oracles whose Polly call throws. -/
def fixtureOraclesFail : Oracles :=
  ⟨.ok [fixtureVoice], .error "connection reset", .ok (),
    .ok "https://signed.example/u"⟩

/-- A concrete run in which the provider call fails after the job record
was created. -/
def fixtureRunFail : ConvertOutcome :=
  convertPipeline fixtureReq (some fixtureSub) none 0 "u1" "id1" "id2" 50
    fixtureOraclesFail

/-- A plan whose concurrency ceiling is 1. -/
def fixturePlan1 : Plan := ⟨⟨50000, some 1⟩⟩

/-- An active subscription on `fixturePlan1` ending at time 100. -/
def fixtureSub1 : Subscription := ⟨.active, some 100, fixturePlan1⟩

/-- A second request while one job is already `processing` under a
concurrency ceiling of 1 (quota plentiful). -/
def fixtureRunConc : ConvertOutcome :=
  convertPipeline fixtureReq (some fixtureSub1) none 1 "u1" "id1" "id2" 50
    fixtureOracles17

/-- A usage record with the whole monthly allowance already consumed. -/
def fixtureUsageFull : UsageRecord := ⟨50000, 50000, 3, 3, 3⟩

/-- A second request while one job is already `processing` under a
concurrency ceiling of 1 AND with the quota exhausted. -/
def fixtureRunConcQuota : ConvertOutcome :=
  convertPipeline fixtureReq (some fixtureSub1) (some fixtureUsageFull) 1
    "u1" "id1" "id2" 50 fixtureOracles17

/-- A completed stored VoiceFile, as `getDownloadUrl` would find it. -/
def fixtureFile : VoiceFile :=
  ⟨"u1", "tts_id1.mp3", "Hello world", 11, fixtureVoice, "mp3", .completed,
    "https://signed.example/u", "audio/u1/id2-tts_id1.mp3", 1, 1000, none,
    0, none⟩

/-- A plan with a 5000-character monthly allowance (§8 scenario). -/
def fixturePlan5000 : Plan := ⟨⟨5000, none⟩⟩

/-- An active subscription on `fixturePlan5000`. -/
def fixtureSub5000 : Subscription := ⟨.active, some 100, fixturePlan5000⟩

/-- A usage record at 4990 of 5000 characters. -/
def fixtureUsage4990 : UsageRecord := ⟨4990, 5000, 7, 7, 7⟩

/-- A 20-character request (pushing 4990 to 5010 > 5000). -/
def fixtureReq20 : ConvertRequest :=
  ⟨"aaaaaaaaaaaaaaaaaaaa", "Joanna", none, none⟩

/-- The §8 quota scenario run: 4990 used of 5000, 20 requested. -/
def fixtureRunQuota : ConvertOutcome :=
  convertPipeline fixtureReq20 (some fixtureSub5000) (some fixtureUsage4990)
    0 "u1" "id1" "id2" 50 fixtureOracles17

/-! ## Claims -/

/-- C5: for every user with no subscription the convert pipeline fails with
the NoSubscription error kind, persists no SynthesisJob, leaves the usage
slot untouched, and calls no synthesis. -/
theorem convert_noSubscription_noJob (req : ConvertRequest)
    (existingUsage : Option UsageRecord) (processingCount : Nat)
    (userId uuid uuidS3 : String) (now : Int) (orc : Oracles) :
    convertPipeline req none existingUsage processingCount
        userId uuid uuidS3 now orc =
      ⟨.error .noSubscription, existingUsage, none, [], false⟩ := rfl

/-- C9: the entitlement check fails with NoSubscription when no
subscription exists (no state change), with SubscriptionInactive when the
status is not `active` (no state change), and with SubscriptionExpired when
the status is `active` but the end date is past — persisting the
subscription as `expired` as a side effect. -/
theorem checkSubscription_entitlement (st : SubStatus) (ed : Option Int)
    (plan : Plan) (now d : Int) :
    checkSubscription none now = ⟨.error .noSubscription, none⟩ ∧
    (st ≠ .active →
      checkSubscription (some ⟨st, ed, plan⟩) now =
        ⟨.error .subscriptionInactive, some ⟨st, ed, plan⟩⟩) ∧
    (st = .active → ed = some d → d < now →
      checkSubscription (some ⟨st, ed, plan⟩) now =
        ⟨.error .subscriptionExpired, some ⟨.expired, ed, plan⟩⟩) := by
  refine ⟨rfl, ?_, ?_⟩
  · intro h
    unfold checkSubscription
    dsimp only
    rw [if_pos h]
  · intro h1 h2 h3
    subst h1
    subst h2
    unfold checkSubscription
    dsimp only
    rw [if_neg (by simp), if_pos h3]

/-- Witness for C9 at concrete inputs: a pending subscription is rejected
as inactive, and an active one with end date 10 checked at time 50 is
rejected as expired and stored with status `expired`. -/
theorem checkSubscription_entitlement_witness :
    checkSubscription (some ⟨.pending, none, ⟨⟨1000, none⟩⟩⟩) 0 =
      ⟨.error .subscriptionInactive, some ⟨.pending, none, ⟨⟨1000, none⟩⟩⟩⟩ ∧
    checkSubscription (some ⟨.active, some 10, ⟨⟨1000, none⟩⟩⟩) 50 =
      ⟨.error .subscriptionExpired, some ⟨.expired, some 10, ⟨⟨1000, none⟩⟩⟩⟩ :=
  ⟨(checkSubscription_entitlement .pending none ⟨⟨1000, none⟩⟩ 0 0).2.1
      (by decide),
   (checkSubscription_entitlement .active (some 10) ⟨⟨1000, none⟩⟩ 50 10).2.2
      rfl rfl (by decide)⟩

/-- C10: the voice-preview pipeline runs with no authentication or
subscription lookup and leaves the whole persistent store unchanged, and
whenever it hands text to the synthesis adapter, that text is exactly the
first 100 characters (`substring(0, 100)`) of the supplied (or default)
sample, in particular at most 100 characters long. -/
theorem preview_pure_and_truncated (st : Store) (voiceId : String)
    (sampleText : Option String) (polly : Except String SynthesisResult) :
    (previewPipeline st voiceId sampleText polly).2 = st ∧
    (∀ t, (previewPipeline st voiceId sampleText polly).1.synthesizedText =
          some t →
        t = jsSubstringTo
          (sampleText.getD "Hello, this is a sample of my voice.") 100 ∧
        t.length ≤ 100) := by
  constructor
  · unfold previewPipeline
    split <;> rfl
  · intro t ht
    unfold previewPipeline at ht
    split at ht
    · rw [previewVoice_synthesizedText] at ht
      split at ht
      · cases ht
      · cases ht
        exact ⟨rfl, jsSubstringTo_length_le _ _⟩
    · cases ht

/-- Witness for C10: a concrete 150-character sample is truncated to its
first 100 characters before synthesis, and the store is untouched. -/
theorem preview_pure_and_truncated_witness :
    (previewPipeline ⟨none, [], none⟩ "Joanna"
        (some (String.mk (List.replicate 150 'a'))) (.ok ⟨10, "a", 8⟩)).2 =
      ⟨none, [], none⟩ ∧
    jsSubstringTo (String.mk (List.replicate 150 'a')) 100 =
      String.mk (List.replicate 100 'a') :=
  ⟨(preview_pure_and_truncated ⟨none, [], none⟩ "Joanna"
      (some (String.mk (List.replicate 150 'a'))) (.ok ⟨10, "a", 8⟩)).1,
   by decide⟩

/-- C1 counterexample: a successful conversion of the 11-character text
"Hello world" for which the provider reports `requestCharacters = 17`
commits 11 — the submitted text's length — whereas the claim requires the
counter to grow by the provider-reported 17
(tts.controller.js line 159 passes `text.length` to `addUsage`). -/
theorem convert_commit_ignores_billed_cex :
    fixtureRun17.result.isOk = true ∧
    fixtureOracles17.polly = .ok ⟨1000, "audio/mpeg", 17⟩ ∧
    storedCharactersUsed fixtureRun17.usageAfter = 0 + 11 ∧
    (0 + 11 : Nat) ≠ 0 + 17 :=
  ⟨rfl, rfl, rfl, by decide⟩

/-- C1 (amended): for every successful conversion, `charactersUsed` after
the call equals its value before plus the length of the submitted text
(`text.length`), which is also the value reported in the response — not
the provider-reported `requestCharacters`. -/
theorem convert_success_adds_text_length (req : ConvertRequest)
    (sub : Option Subscription) (x : Option UsageRecord) (count : Nat)
    (uid u1 u2 : String) (now : Int) (orc : Oracles) (s : ConvertSuccess)
    (h : (convertPipeline req sub x count uid u1 u2 now orc).result = .ok s) :
    storedCharactersUsed
        (convertPipeline req sub x count uid u1 u2 now orc).usageAfter =
      storedCharactersUsed x + req.text.length ∧
    s.charactersUsed = storedCharactersUsed x + req.text.length := by
  have hc := convertPipeline_chars req sub x count uid u1 u2 now orc
  rw [h] at hc
  dsimp only at hc
  have hp := convertPipeline_ok_payload req sub x count uid u1 u2 now orc
  rw [h] at hp
  refine ⟨hc, ?_⟩
  rw [← hc]
  simpa [Except.toOption] using hp

/-- Witness for C1 (amended) at the concrete successful run: the stored
usage counter ends at 11 characters. -/
theorem convert_success_adds_text_length_witness :
    storedCharactersUsed fixtureRun17.usageAfter = 11 :=
  (convert_success_adds_text_length fixtureReq (some fixtureSub) none 0
    "u1" "id1" "id2" 50 fixtureOracles17 fixtureSuccess17 (by decide)).1

/-- C2 counterexample: two successful same-period conversions with billed
counts 20 and 9 (texts of length 11 and 6) leave the counter at 17 —
the sum of the text lengths — not at the claimed 29, the sum of the
billed character counts. -/
theorem concurrent_commits_sum_cex :
    fixtureRunSeq1.result.isOk = true ∧
    fixtureRunSeq2.result.isOk = true ∧
    fixtureOracles20.polly = .ok ⟨1000, "audio/mpeg", 20⟩ ∧
    fixtureOracles9.polly = .ok ⟨500, "audio/mpeg", 9⟩ ∧
    storedCharactersUsed fixtureRunSeq2.usageAfter = 17 ∧
    (17 : Nat) ≠ 20 + 9 :=
  ⟨rfl, rfl, rfl, rfl, rfl, by decide⟩

/-- C2 (amended): the Quota Ledger commit is an atomic increment
(spec-modelled, the `Usage` model is not among the available sources), so
any sequential order of N concurrent commits grows the counter by exactly
the sum of the committed amounts — no increment is lost — and each commit
adds exactly the amount it is given, which for the pipeline is the
request's `text.length`, not the billed count. -/
theorem concurrent_commits_sum (initial : Nat) (amounts perm : List Nat)
    (hp : amounts.Perm perm) :
    commitSchedule initial perm = initial + amounts.sum ∧
    (∀ (u : UsageRecord) (chars dur : Nat),
        (u.addUsage chars dur).charactersUsed =
          u.charactersUsed + chars) := by
  constructor
  · rw [commitSchedule_eq_sum, hp.sum_eq]
  · intro u chars dur
    simp [UsageRecord.addUsage]

/-- Witness for C2 (amended): committing the amounts 3, 4, 2 in the
order 4, 2, 3 on a counter at 5 yields 5 + 9. -/
theorem concurrent_commits_sum_witness :
    commitSchedule 5 [4, 2, 3] = 5 + [3, 4, 2].sum :=
  (concurrent_commits_sum 5 [3, 4, 2] [4, 2, 3] (by decide)).1

/-- C3: a conversion in which the provider call (or upload, or signing)
fails leaves `charactersUsed` unchanged, and when the job record had been
created it is persisted as `failed` with a non-empty `errorMessage`
(after a first save in `processing`). -/
theorem convert_failure_no_charge_failed_job (req : ConvertRequest)
    (sub : Option Subscription) (x : Option UsageRecord) (count : Nat)
    (uid u1 u2 : String) (now : Int) (orc : Oracles) (e : ConvertError)
    (h : (convertPipeline req sub x count uid u1 u2 now orc).result =
      .error e) :
    storedCharactersUsed
        (convertPipeline req sub x count uid u1 u2 now orc).usageAfter =
      storedCharactersUsed x ∧
    ((convertPipeline req sub x count uid u1 u2 now orc).savedJobs ≠ [] →
      ∃ j0 j1,
        (convertPipeline req sub x count uid u1 u2 now orc).savedJobs =
          [j0, j1] ∧
        j0.status = .processing ∧ j1.status = .failed ∧
        ∃ m, j1.errorMessage = some m ∧ m ≠ "") := by
  constructor
  · have hc := convertPipeline_chars req sub x count uid u1 u2 now orc
    rw [h] at hc
    simpa using hc
  · intro hne
    rcases convertPipeline_savedJobs req sub x count uid u1 u2 now orc with
      h0 | ⟨j0, j1, hj, hp0, hcase⟩
    · exact absurd h0 hne
    · rcases hcase with ⟨hok, _⟩ | ⟨_, hfail, m, hm, hmne⟩
      · rw [h] at hok
        simp [Except.isOk, Except.toBool] at hok
      · exact ⟨j0, j1, hj, hp0, hfail, m, hm, hmne⟩

/-- Witness for C3 at the concrete failing run: usage stays at 0 and the
job snapshots are a `processing` save followed by a `failed` save with a
non-empty message. -/
theorem convert_failure_no_charge_failed_job_witness :
    storedCharactersUsed fixtureRunFail.usageAfter =
      storedCharactersUsed none ∧
    (∃ j0 j1, fixtureRunFail.savedJobs = [j0, j1] ∧
      j0.status = .processing ∧ j1.status = .failed ∧
      ∃ m, j1.errorMessage = some m ∧ m ≠ "") :=
  ⟨(convert_failure_no_charge_failed_job fixtureReq (some fixtureSub) none 0
      "u1" "id1" "id2" 50 fixtureOraclesFail .serverError rfl).1,
   (convert_failure_no_charge_failed_job fixtureReq (some fixtureSub) none 0
      "u1" "id1" "id2" 50 fixtureOraclesFail .serverError rfl).2
     (by decide)⟩


/-- C4: every run of the convert pipeline that creates a SynthesisJob
persists it through exactly the snapshots `processing` then one terminal
state (`completed` or `failed`) — never leaving it `processing` — and the
retrieval path changes no field of a stored file other than
`downloadCount` and `lastDownloadedAt`. -/
theorem job_terminal_then_immutable (req : ConvertRequest)
    (sub : Option Subscription) (x : Option UsageRecord) (count : Nat)
    (uid u1 u2 : String) (now : Int) (orc : Oracles) (f : VoiceFile)
    (dnow : Int) (signer : Except String String) :
    ((convertPipeline req sub x count uid u1 u2 now orc).savedJobs = [] ∨
      ∃ j0 j1,
        (convertPipeline req sub x count uid u1 u2 now orc).savedJobs =
          [j0, j1] ∧
        j0.status = .processing ∧
        (j1.status = .completed ∨ j1.status = .failed)) ∧
    (∀ g, (getDownloadUrl (some f) dnow signer).fileAfter = some g →
        g.userId = f.userId ∧ g.filename = f.filename ∧
        g.originalText = f.originalText ∧ g.textLength = f.textLength ∧
        g.voice = f.voice ∧ g.audioFormat = f.audioFormat ∧
        g.status = f.status ∧ g.audioUrl = f.audioUrl ∧
        g.s3Key = f.s3Key ∧ g.duration = f.duration ∧
        g.fileSize = f.fileSize ∧ g.errorMessage = f.errorMessage) := by
  constructor
  · rcases convertPipeline_savedJobs req sub x count uid u1 u2 now orc with
      h0 | ⟨j0, j1, hj, hp0, hcase⟩
    · exact Or.inl h0
    · refine Or.inr ⟨j0, j1, hj, hp0, ?_⟩
      rcases hcase with ⟨_, hc⟩ | ⟨_, hf, _⟩
      · exact Or.inl hc
      · exact Or.inr hf
  · intro g hg
    unfold getDownloadUrl at hg
    dsimp only at hg
    split at hg
    · injection hg with h2
      subst h2
      exact ⟨rfl, rfl, rfl, rfl, rfl, rfl, rfl, rfl, rfl, rfl, rfl, rfl⟩
    · split at hg
      · injection hg with h2
        subst h2
        exact ⟨rfl, rfl, rfl, rfl, rfl, rfl, rfl, rfl, rfl, rfl, rfl, rfl⟩
      · injection hg with h2
        subst h2
        exact ⟨rfl, rfl, rfl, rfl, rfl, rfl, rfl, rfl, rfl, rfl, rfl, rfl⟩

/-- Witness for C4: the failing concrete run saves `processing` then a
terminal snapshot, and a concrete retrieval bumps only the download
bookkeeping of `fixtureFile`. -/
theorem job_terminal_then_immutable_witness :
    (fixtureRunFail.savedJobs = [] ∨
      ∃ j0 j1, fixtureRunFail.savedJobs = [j0, j1] ∧
        j0.status = .processing ∧
        (j1.status = .completed ∨ j1.status = .failed)) ∧
    (recordDownload fixtureFile 7).userId = fixtureFile.userId :=
  ⟨(job_terminal_then_immutable fixtureReq (some fixtureSub) none 0 "u1"
      "id1" "id2" 50 fixtureOraclesFail fixtureFile 7
      (.ok "https://signed.example/w")).1,
   ((job_terminal_then_immutable fixtureReq (some fixtureSub) none 0 "u1"
      "id1" "id2" 50 fixtureOraclesFail fixtureFile 7
      (.ok "https://signed.example/w")).2
     (recordDownload fixtureFile 7) (by decide)).1⟩

/-- C6: with an entitled subscription, a request whose text length
overruns the remaining quota is rejected with QuotaExceeded before any
synthesis-adapter call and before any job record is created, and the
quota predicate admits exactly when
`charactersUsed + requestedChars ≤ charactersLimit` (the record's limit is
the plan's `charactersPerMonth` — quota internals modelled from the spec,
the `Usage` model not being among the available sources). -/
theorem quota_rejected_before_provider (req : ConvertRequest)
    (sub : Option Subscription) (x : Option UsageRecord) (count : Nat)
    (uid u1 u2 : String) (now : Int) (orc : Oracles) (plan : Plan)
    (u : UsageRecord) (n : Nat)
    (hmw : (checkSubscription sub now).decision = .ok plan)
    (htext : req.text ≠ "")
    (hq : (getOrCreateCurrentUsage x plan).hasQuota req.text.length =
      false) :
    (convertPipeline req sub x count uid u1 u2 now orc).result =
      .error .quotaExceeded ∧
    (convertPipeline req sub x count uid u1 u2 now orc).synthCalled =
      false ∧
    (convertPipeline req sub x count uid u1 u2 now orc).savedJobs = [] ∧
    (u.hasQuota n = true ↔ u.charactersUsed + n ≤ u.charactersLimit) ∧
    (getOrCreateCurrentUsage none plan).charactersLimit =
      plan.features.charactersPerMonth := by
  have hstep : convertPipeline req sub x count uid u1 u2 now orc =
      ⟨.error .quotaExceeded, some (getOrCreateCurrentUsage x plan),
        (checkSubscription sub now).subAfter, [], false⟩ := by
    unfold convertPipeline checkCharacterLimit
    dsimp only
    rw [hmw]
    try dsimp only
    rw [if_neg htext]
    try dsimp only
    simp [hq]
  refine ⟨by rw [hstep], by rw [hstep], by rw [hstep], ?_, ?_⟩
  · simp [UsageRecord.hasQuota]
  · simp [getOrCreateCurrentUsage]

/-- Witness for C6 at the §8 scenario (limit 5000, used 4990, 20-character
request): rejected with QuotaExceeded, no synthesis call, no job. -/
theorem quota_rejected_before_provider_witness :
    fixtureRunQuota.result = .error .quotaExceeded ∧
    fixtureRunQuota.synthCalled = false ∧
    fixtureRunQuota.savedJobs = [] :=
  have h := quota_rejected_before_provider fixtureReq20 (some fixtureSub5000)
    (some fixtureUsage4990) 0 "u1" "id1" "id2" 50 fixtureOracles17
    fixturePlan5000 fixtureUsage4990 20 rfl (by decide) (by decide)
  ⟨h.1, h.2.1, h.2.2.1⟩

/-- C7 counterexample: a request denied for concurrency (ceiling 1, one
job already processing, quota plentiful) leaves no SynthesisJob record at
all — the admission check (middleware, tts.routes.js line 71) runs before
the controller creates the job, contradicting the claimed step order. -/
theorem job_before_admission_cex :
    fixtureRunConc.result = .error .concurrencyLimitExceeded ∧
    fixtureRunConc.savedJobs = [] :=
  ⟨rfl, rfl⟩

/-- C7 (amended): the concurrency admission check runs before the
SynthesisJob is created, so a request denied for concurrency has no job
record persisted. -/
theorem concurrencyDenied_noJob (req : ConvertRequest)
    (sub : Option Subscription) (x : Option UsageRecord) (count : Nat)
    (uid u1 u2 : String) (now : Int) (orc : Oracles)
    (h : (convertPipeline req sub x count uid u1 u2 now orc).result =
      .error .concurrencyLimitExceeded) :
    (convertPipeline req sub x count uid u1 u2 now orc).savedJobs = [] := by
  rcases convertPipeline_jobs_only_from_synthesis req sub x count uid u1 u2
      now orc with h0 | hs | hok
  · exact h0
  · rw [h] at hs
    simp at hs
  · rw [h] at hok
    simp [Except.isOk, Except.toBool] at hok

/-- Witness for C7 (amended) at the concrete denied run. -/
theorem concurrencyDenied_noJob_witness :
    fixtureRunConc.savedJobs = [] :=
  concurrencyDenied_noJob fixtureReq (some fixtureSub1) none 1 "u1" "id1"
    "id2" 50 fixtureOracles17 rfl

/-- C8 counterexample: (a) in the claimed scenario (ceiling 1, one job
processing) with the quota exhausted, the request fails with QuotaExceeded,
not ConcurrencyLimitExceeded — the quota middleware runs first — and
(b) a plan that sets its concurrency limit to 0 is treated as unset
(JS `|| 5`), so three in-flight jobs are admitted although 3 ≥ 0. -/
theorem concurrency_regardless_of_quota_cex :
    fixtureRunConcQuota.result = .error .quotaExceeded ∧
    fixtureRunConcQuota.result ≠ .error .concurrencyLimitExceeded ∧
    checkConcurrentRequests 3 ⟨⟨50000, some 0⟩⟩ = none ∧ 3 ≥ 0 :=
  ⟨rfl, by decide, rfl, by decide⟩

/-- C8 (amended): admission is denied exactly when the count of the user's
processing jobs reaches the effective ceiling — the plan's limit when set
and non-zero, else 5 — and, provided the quota pre-check passes, a request
by a user at the ceiling fails with ConcurrencyLimitExceeded. -/
theorem concurrency_admission (c : Nat) (p : Plan) (req : ConvertRequest)
    (sub : Option Subscription) (x : Option UsageRecord) (count : Nat)
    (uid u1 u2 : String) (now : Int) (orc : Oracles) (plan : Plan)
    (hmw : (checkSubscription sub now).decision = .ok plan)
    (htext : req.text ≠ "")
    (hq : (getOrCreateCurrentUsage x plan).hasQuota req.text.length = true)
    (hcount : count ≥ effectiveConcurrencyLimit plan) :
    (checkConcurrentRequests c p = some .concurrencyLimitExceeded ↔
      c ≥ effectiveConcurrencyLimit p) ∧
    (convertPipeline req sub x count uid u1 u2 now orc).result =
      .error .concurrencyLimitExceeded := by
  constructor
  · unfold checkConcurrentRequests
    split
    · simp [*]
    · simp [*]
  · have hcc : checkConcurrentRequests count plan =
        some .concurrencyLimitExceeded := by
      unfold checkConcurrentRequests
      rw [if_pos hcount]
    unfold convertPipeline checkCharacterLimit
    dsimp only
    rw [hmw]
    try dsimp only
    rw [if_neg htext]
    try dsimp only
    simp [hq, hcc]

/-- Witness for C8 (amended) at the concrete scenario: ceiling 1, one job
processing, quota plentiful — denied with ConcurrencyLimitExceeded; the
denial predicate holds at count 1 against `fixturePlan1`. -/
theorem concurrency_admission_witness :
    (checkConcurrentRequests 1 fixturePlan1 =
        some .concurrencyLimitExceeded ↔
      1 ≥ effectiveConcurrencyLimit fixturePlan1) ∧
    fixtureRunConc.result = .error .concurrencyLimitExceeded :=
  concurrency_admission 1 fixturePlan1 fixtureReq (some fixtureSub1) none 1
    "u1" "id1" "id2" 50 fixtureOracles17 fixturePlan1 rfl (by decide)
    (by decide) (by decide)


end TTS
